import Mathlib

/-!
Shallow embedding of the TypeORM sample core: the `PrimaryColumn` decorator
(column type resolution and validation) and the `Connection` composition root
(entity metadata registration, repository lookup, connect sequencing).

Class identities (JavaScript constructor functions) and other opaque object
identities are modelled as natural numbers.  JavaScript reference equality
(`===`) on metadata objects is modelled by giving `EntityMetadata` an `id`
field standing for its object identity; structurally distinct objects carry
distinct ids.  JavaScript string falsiness (`!type` is true for both
`undefined` and the empty string) is modelled by `strFalsy`.
-/

/-- Falsiness of an optional string in JavaScript: `undefined` and `""` are
falsy, every other string is truthy. -/
def strFalsy : Option String → Bool
  | none => true
  | some s => s == ""

/-- Column options as accepted by the column decorators
(`ColumnOptions`): only the fields the claims exercise are carried
(`type`, `nullable`, `autoIncrement`); `none`/`false` model an absent field. -/
structure ColumnOptions where
  type : Option String := none
  nullable : Bool := false
  autoIncrement : Bool := false
deriving DecidableEq, Repr

/-- Column metadata as constructed by the `PrimaryColumn` decorator
(`new ColumnMetadata({...})`): owning class identity (`target`), property
name, reflected property type, primary-key flag and the resolved options. -/
structure ColumnMetadata where
  target : Nat
  propertyName : String
  propertyType : String
  isPrimaryKey : Bool
  options : ColumnOptions
deriving DecidableEq, Repr

/-- Errors thrown by the `PrimaryColumn` decorator body. -/
inductive ColumnDecoratorError
  | columnTypeUndefinedError (target : Nat) (propertyName : String)
  | primaryColumnCannotBeNullableError (target : Nat) (propertyName : String)
deriving DecidableEq, Repr

/-- Overload dispatch of `PrimaryColumn(typeOrOptions?, options?)`: when the
first argument is a string it is the explicit column type and the second
argument stays the options; otherwise the first argument (possibly
`undefined`) *overwrites* the options parameter, discarding the second
argument, exactly as `options = <ColumnOptions> typeOrOptions` does. -/
def primaryColumnArgs :
    Option (String ⊕ ColumnOptions) → Option ColumnOptions →
    Option String × Option ColumnOptions
  | some (Sum.inl t), opts => (some t, opts)
  | some (Sum.inr o), _ => (none, some o)
  | none, _ => (none, none)

/-- Resolution of the effective column options inside the decorator body:
if no explicit type was passed, fall back to the type inferred from the
reflected property type (`ColumnTypes.determineTypeFromFunction`, supplied
here as the `inferredType` argument); if the caller passed no options start
from empty options; if the options carry no (truthy) type, store the
resolved type into them. -/
def resolvedColumnOptions (typeArg : Option String) (optionsArg : Option ColumnOptions)
    (inferredType : Option String) : ColumnOptions :=
  let type := if strFalsy typeArg then inferredType else typeArg
  let columnOptions := optionsArg.getD {}
  if strFalsy columnOptions.type then { columnOptions with type := type }
  else columnOptions

/-- Body of the decorator function returned by `PrimaryColumn`: resolves the
column options, then fails with `ColumnTypeUndefinedError` when the resolved
type is still falsy, then fails with `PrimaryColumnCannotBeNullableError`
when the resolved options are nullable, and otherwise yields the
`ColumnMetadata` that is registered in the storage. -/
def primaryColumnProcess (typeArg : Option String) (optionsArg : Option ColumnOptions)
    (reflectedType : String) (inferredType : Option String)
    (target : Nat) (propertyName : String) :
    Except ColumnDecoratorError ColumnMetadata :=
  let columnOptions := resolvedColumnOptions typeArg optionsArg inferredType
  if strFalsy columnOptions.type then
    Except.error (ColumnDecoratorError.columnTypeUndefinedError target propertyName)
  else if columnOptions.nullable then
    Except.error (ColumnDecoratorError.primaryColumnCannotBeNullableError target propertyName)
  else
    Except.ok { target := target, propertyName := propertyName,
                propertyType := reflectedType, isPrimaryKey := true,
                options := columnOptions }

/-- Modelled from the spec: `MetadataStorage.addColumnMetadata` is not under
`src/`; per the spec it appends the entry to the storage with no uniqueness
check and no other side effect. -/
def addColumnMetadata (storage : List ColumnMetadata) (entry : ColumnMetadata) :
    List ColumnMetadata :=
  storage ++ [entry]

/-- The decorator body together with its effect on the metadata storage: on
success the built `ColumnMetadata` is registered via `addColumnMetadata`; on
error the throw happens before that call, so the storage is returned as it
was. -/
def primaryColumnDecorate (storage : List ColumnMetadata)
    (typeArg : Option String) (optionsArg : Option ColumnOptions)
    (reflectedType : String) (inferredType : Option String)
    (target : Nat) (propertyName : String) :
    Except ColumnDecoratorError Unit × List ColumnMetadata :=
  match primaryColumnProcess typeArg optionsArg reflectedType inferredType target propertyName with
  | Except.error e => (Except.error e, storage)
  | Except.ok cm => (Except.ok (), addColumnMetadata storage cm)

/-- Entity metadata: `id` models the JavaScript object identity used by the
`===` comparison in `getRepository`; `target` is the owning class identity
compared by `getEntityMetadata`. -/
structure EntityMetadata where
  id : Nat
  target : Nat
deriving DecidableEq, Repr

/-- A repository as constructed by `new Repository(this, metadata)`; only the
metadata argument is retained (the connection back-reference plays no role in
the claims and would make the structure cyclic). -/
structure Repository where
  metadata : EntityMetadata
deriving DecidableEq, Repr

/-- The `RepositoryAndMetadata` pair type private to `Connection`. -/
structure RepositoryAndMetadata where
  repository : Repository
  metadata : EntityMetadata
deriving DecidableEq, Repr

/-- Connection options; only `autoSchemaCreate` is consumed by the modelled
code (`connect` compares it with `=== true`). -/
structure ConnectionOptions where
  autoSchemaCreate : Bool := false
deriving DecidableEq, Repr

/-- Errors thrown by the `Connection` lookup methods. -/
inductive ConnectionError
  | metadataNotFoundError (entityClass : Nat)
  | repositoryNotFoundError (entityClass : Nat)
deriving DecidableEq, Repr

/-- The `Connection` state: name, driver identity, the registered entity
metadatas, entity listener metadatas, subscribers (listener metadatas and
subscribers are opaque, modelled by identities), the repository/metadata
pairs and the options.  The `EntityManager` back-reference carries no state
relevant to the claims and is omitted. -/
structure Connection where
  name : String
  driver : Nat
  entityMetadatas : List EntityMetadata
  entityListenerMetadatas : List Nat
  subscribers : List Nat
  repositoryAndMetadatas : List RepositoryAndMetadata
  options : ConnectionOptions
deriving DecidableEq, Repr

/-- The `Connection` constructor: stores name, driver and options; all
registries start empty. -/
def mkConnection (name : String) (driver : Nat) (options : ConnectionOptions) :
    Connection :=
  { name := name, driver := driver, entityMetadatas := [],
    entityListenerMetadatas := [], subscribers := [],
    repositoryAndMetadatas := [], options := options }

/-- `Connection.createRepoMeta`: pairs a metadata with a freshly constructed
repository over it. -/
def createRepoMeta (metadata : EntityMetadata) : RepositoryAndMetadata :=
  { metadata := metadata, repository := { metadata := metadata } }

/-- `Connection.getEntityMetadata`: finds the first registered metadata whose
`target` is the given class identity; throws `MetadataNotFoundError` when
none matches. -/
def Connection.getEntityMetadata (c : Connection) (entityClass : Nat) :
    Except ConnectionError EntityMetadata :=
  match c.entityMetadatas.find? (fun m => m.target == entityClass) with
  | none => Except.error (ConnectionError.metadataNotFoundError entityClass)
  | some m => Except.ok m

/-- `Connection.getRepository`: resolves the metadata for the class, then
finds the pair whose metadata is (reference-)equal to it; throws
`RepositoryNotFoundError` when no pair matches. -/
def Connection.getRepository (c : Connection) (entityClass : Nat) :
    Except ConnectionError Repository :=
  match c.getEntityMetadata entityClass with
  | Except.error e => Except.error e
  | Except.ok metadata =>
    match c.repositoryAndMetadatas.find? (fun rm => rm.metadata == metadata) with
    | none => Except.error (ConnectionError.repositoryNotFoundError entityClass)
    | some rm => Except.ok rm.repository

/-- `Connection.addEntityMetadatas`: concatenates the new metadatas onto the
registry and one freshly created repository/metadata pair per new metadata
onto the pair list. -/
def Connection.addEntityMetadatas (c : Connection) (metadatas : List EntityMetadata) :
    Connection :=
  { c with entityMetadatas := c.entityMetadatas ++ metadatas,
           repositoryAndMetadatas :=
             c.repositoryAndMetadatas ++ metadatas.map createRepoMeta }

/-- `Connection.addEntityListenerMetadatas`: concatenates onto the listener
registry only. -/
def Connection.addEntityListenerMetadatas (c : Connection) (metadatas : List Nat) :
    Connection :=
  { c with entityListenerMetadatas := c.entityListenerMetadatas ++ metadatas }

/-- `Connection.addSubscribers`: concatenates onto the subscriber list only. -/
def Connection.addSubscribers (c : Connection) (subscribers : List Nat) :
    Connection :=
  { c with subscribers := c.subscribers ++ subscribers }

/-- The `repositories` getter: projects the repository out of each pair. -/
def Connection.repositories (c : Connection) : List Repository :=
  c.repositoryAndMetadatas.map RepositoryAndMetadata.repository

/-- The capabilities `connect()` invokes, recorded in invocation order. -/
inductive ConnectStep
  | driverConnect
  | schemaCreate
deriving DecidableEq, Repr

/-- `Connection.connect`: the promise chain `driver.connect().then(...)`.
The async outcomes of the two external capabilities are injected as booleans
(`true` = the promise fulfils).  The result is whether the returned promise
fulfils, paired with the trace of capability invocations: the driver connect
is always invoked first; only when it fulfils does the continuation run,
which invokes the schema creator exactly when `autoSchemaCreate === true`. -/
def Connection.connect (c : Connection) (driverConnectOk schemaCreateOk : Bool) :
    Bool × List ConnectStep :=
  if driverConnectOk then
    if c.options.autoSchemaCreate then
      (schemaCreateOk, [ConnectStep.driverConnect, ConnectStep.schemaCreate])
    else
      (true, [ConnectStep.driverConnect])
  else
    (false, [ConnectStep.driverConnect])

/-- Connection states reachable through the public registration interface:
freshly constructed, or obtained from a reachable state by one of the three
registration methods. -/
inductive Reached : Connection → Prop
  | init (name : String) (driver : Nat) (options : ConnectionOptions) :
      Reached (mkConnection name driver options)
  | addMetas (c : Connection) (ms : List EntityMetadata) :
      Reached c → Reached (c.addEntityMetadatas ms)
  | addListeners (c : Connection) (ls : List Nat) :
      Reached c → Reached (c.addEntityListenerMetadatas ls)
  | addSubs (c : Connection) (ss : List Nat) :
      Reached c → Reached (c.addSubscribers ss)

/-- In every reachable connection state the pair list is exactly the
metadata registry, in order, paired via `createRepoMeta`. -/
theorem reached_pairs_eq (c : Connection) (h : Reached c) :
    c.repositoryAndMetadatas = c.entityMetadatas.map createRepoMeta := by
  induction h with
  | init name driver options => rfl
  | addMetas c ms _ ih =>
    simp [Connection.addEntityMetadatas, ih]
  | addListeners c ls _ ih =>
    simpa [Connection.addEntityListenerMetadatas] using ih
  | addSubs c ss _ ih =>
    simpa [Connection.addSubscribers] using ih

example : primaryColumnProcess (some "int") (some { autoIncrement := true })
    "number" none 7 "id" =
    Except.ok { target := 7, propertyName := "id", propertyType := "number",
                isPrimaryKey := true,
                options := { type := some "int", autoIncrement := true } } := rfl

example : primaryColumnProcess none none "string" (some "string") 7 "name" =
    Except.ok { target := 7, propertyName := "name", propertyType := "string",
                isPrimaryKey := true, options := { type := some "string" } } := rfl

example : (mkConnection "c" 0 {}).getRepository 3 =
    Except.error (ConnectionError.metadataNotFoundError 3) := rfl

/-! Claim theorems -/

/-- C1 (counterexample): the claim says an unregistered class fails
`getRepository` with `RepositoryNotFoundError`; on a fresh connection with no
registered metadata, class `0` fails with `MetadataNotFoundError` instead,
which is a different error. -/
theorem getRepository_unregistered_counterexample :
    (mkConnection "connection" 0 {}).entityMetadatas = [] ∧
    (mkConnection "connection" 0 {}).getRepository 0 =
      Except.error (ConnectionError.metadataNotFoundError 0) ∧
    ConnectionError.metadataNotFoundError 0 ≠
      ConnectionError.repositoryNotFoundError 0 :=
  ⟨rfl, rfl, by decide⟩

/-- C1 (amended): for every class with no registered metadata of matching
target, `getRepository` fails with `MetadataNotFoundError`, raised by the
underlying `getEntityMetadata` lookup. -/
theorem getRepository_unregistered (c : Connection) (entityClass : Nat)
    (h : ∀ m ∈ c.entityMetadatas, m.target ≠ entityClass) :
    c.getRepository entityClass =
      Except.error (ConnectionError.metadataNotFoundError entityClass) := by
  have hfind : c.entityMetadatas.find? (fun m => m.target == entityClass) = none := by
    rw [List.find?_eq_none]
    intro m hm
    simpa using h m hm
  simp [Connection.getRepository, Connection.getEntityMetadata, hfind]

/-- C1 (amended, witness): on a fresh connection class `5` is unregistered
and `getRepository` fails with `MetadataNotFoundError`. -/
theorem getRepository_unregistered_witness :
    (mkConnection "c" 0 {}).getRepository 5 =
      Except.error (ConnectionError.metadataNotFoundError 5) :=
  getRepository_unregistered (mkConnection "c" 0 {}) 5 (by simp [mkConnection])

/-- C2: in every reachable connection state, if some registered metadata has
target `entityClass`, then `getRepository entityClass` succeeds and the
returned repository's metadata has that very target. -/
theorem getRepository_registered (c : Connection) (entityClass : Nat)
    (h : Reached c) (hm : ∃ m ∈ c.entityMetadatas, m.target = entityClass) :
    ∃ r, c.getRepository entityClass = Except.ok r ∧
      r.metadata.target = entityClass := by
  obtain ⟨m0, hm0, ht0⟩ := hm
  have hfind : ∃ m, c.entityMetadatas.find? (fun m => m.target == entityClass) = some m := by
    cases hf : c.entityMetadatas.find? (fun m => m.target == entityClass) with
    | none => exact absurd (List.find?_eq_none.mp hf m0 hm0) (by simp [ht0])
    | some m => exact ⟨m, rfl⟩
  obtain ⟨m, hmfind⟩ := hfind
  have htm : m.target = entityClass := by simpa using List.find?_some hmfind
  have hmem : m ∈ c.entityMetadatas := List.mem_of_find?_eq_some hmfind
  have hpairs := reached_pairs_eq c h
  have hpair_mem : createRepoMeta m ∈ c.repositoryAndMetadatas := by
    rw [hpairs]
    exact List.mem_map_of_mem _ hmem
  have hfind2 : ∃ rm, c.repositoryAndMetadatas.find? (fun rm => rm.metadata == m) = some rm := by
    cases hf : c.repositoryAndMetadatas.find? (fun rm => rm.metadata == m) with
    | none => exact absurd (List.find?_eq_none.mp hf _ hpair_mem) (by simp [createRepoMeta])
    | some rm => exact ⟨rm, rfl⟩
  obtain ⟨rm, hrmfind⟩ := hfind2
  have hrm_mem : rm ∈ c.repositoryAndMetadatas := List.mem_of_find?_eq_some hrmfind
  have hrm_eq : rm.metadata = m := by simpa using List.find?_some hrmfind
  have hshape : ∃ m2, createRepoMeta m2 = rm := by
    rw [hpairs] at hrm_mem
    obtain ⟨m2, _, h2⟩ := List.mem_map.mp hrm_mem
    exact ⟨m2, h2⟩
  obtain ⟨m2, hm2⟩ := hshape
  refine ⟨rm.repository, ?_, ?_⟩
  · simp [Connection.getRepository, Connection.getEntityMetadata, hmfind, hrmfind]
  · have hrr : rm.repository.metadata = rm.metadata := by
      rw [← hm2]
      simp [createRepoMeta]
    rw [hrr, hrm_eq, htm]

/-- C2 (witness): registering a metadata with target `42` makes
`getRepository 42` succeed with a repository over that target. -/
theorem getRepository_registered_witness :
    ∃ r, ((mkConnection "c" 0 {}).addEntityMetadatas
        [{ id := 1, target := 42 }]).getRepository 42 = Except.ok r ∧
      r.metadata.target = 42 :=
  getRepository_registered _ 42
    (Reached.addMetas _ _ (Reached.init "c" 0 {}))
    ⟨{ id := 1, target := 42 },
      by simp [Connection.addEntityMetadatas, mkConnection], rfl⟩

/-- C3: when the resolved column options of a primary-column declaration
carry a resolvable (truthy) type and the nullable flag, the declaration
fails with `PrimaryColumnCannotBeNullableError`. -/
theorem primaryColumn_nullable_error (typeArg : Option String)
    (optionsArg : Option ColumnOptions) (reflectedType : String)
    (inferredType : Option String) (target : Nat) (propertyName : String)
    (htype : strFalsy (resolvedColumnOptions typeArg optionsArg inferredType).type = false)
    (hnull : (resolvedColumnOptions typeArg optionsArg inferredType).nullable = true) :
    primaryColumnProcess typeArg optionsArg reflectedType inferredType target propertyName =
      Except.error
        (ColumnDecoratorError.primaryColumnCannotBeNullableError target propertyName) := by
  simp [primaryColumnProcess, htype, hnull]

/-- C3 (witness): declaring `PrimaryColumn("int", {nullable: true})` fails
with `PrimaryColumnCannotBeNullableError`. -/
theorem primaryColumn_nullable_error_witness :
    primaryColumnProcess (some "int") (some { nullable := true }) "number"
        none 7 "id" =
      Except.error
        (ColumnDecoratorError.primaryColumnCannotBeNullableError 7 "id") :=
  primaryColumn_nullable_error (some "int") (some { nullable := true })
    "number" none 7 "id" (by decide) (by decide)

/-- C4: when no truthy type is given as decorator argument nor in the column
options and type inference yields no truthy type either, the declaration
fails with `ColumnTypeUndefinedError`. -/
theorem primaryColumn_type_undefined (typeArg : Option String)
    (optionsArg : Option ColumnOptions) (reflectedType : String)
    (inferredType : Option String) (target : Nat) (propertyName : String)
    (hTypeArg : strFalsy typeArg = true)
    (hOptType : strFalsy (optionsArg.getD {}).type = true)
    (hInfer : strFalsy inferredType = true) :
    primaryColumnProcess typeArg optionsArg reflectedType inferredType target propertyName =
      Except.error (ColumnDecoratorError.columnTypeUndefinedError target propertyName) := by
  simp [primaryColumnProcess, resolvedColumnOptions, hTypeArg, hOptType, hInfer]

/-- C4 (witness): a bare `PrimaryColumn()` on a property whose reflected type
yields no inference fails with `ColumnTypeUndefinedError`. -/
theorem primaryColumn_type_undefined_witness :
    primaryColumnProcess none none "object" none 3 "payload" =
      Except.error (ColumnDecoratorError.columnTypeUndefinedError 3 "payload") :=
  primaryColumn_type_undefined none none "object" none 3 "payload"
    (by decide) (by decide) (by decide)

/-- C9: when the resolved options are nullable but their type is not
resolvable (falsy), the type-undefined check fires first: the declaration
fails with `ColumnTypeUndefinedError`, not
`PrimaryColumnCannotBeNullableError`. -/
theorem primaryColumn_type_check_first (typeArg : Option String)
    (optionsArg : Option ColumnOptions) (reflectedType : String)
    (inferredType : Option String) (target : Nat) (propertyName : String)
    (hnull : (resolvedColumnOptions typeArg optionsArg inferredType).nullable = true)
    (htype : strFalsy (resolvedColumnOptions typeArg optionsArg inferredType).type = true) :
    primaryColumnProcess typeArg optionsArg reflectedType inferredType target propertyName =
      Except.error (ColumnDecoratorError.columnTypeUndefinedError target propertyName) := by
  simp [primaryColumnProcess, htype]

/-- C9 (witness): `PrimaryColumn({nullable: true})` with no type anywhere
fails with `ColumnTypeUndefinedError`. -/
theorem primaryColumn_type_check_first_witness :
    primaryColumnProcess none (some { nullable := true }) "object" none 3 "p" =
      Except.error (ColumnDecoratorError.columnTypeUndefinedError 3 "p") :=
  primaryColumn_type_check_first none (some { nullable := true }) "object"
    none 3 "p" (by decide) (by decide)

/-- C5: whenever the `PrimaryColumn` decorator body fails (with either
error), the throw happens before `addColumnMetadata`, so the metadata
storage is returned unchanged. -/
theorem primaryColumn_error_storage_unchanged (storage : List ColumnMetadata)
    (typeArg : Option String) (optionsArg : Option ColumnOptions)
    (reflectedType : String) (inferredType : Option String)
    (target : Nat) (propertyName : String) (e : ColumnDecoratorError)
    (h : (primaryColumnDecorate storage typeArg optionsArg reflectedType
            inferredType target propertyName).1 = Except.error e) :
    (primaryColumnDecorate storage typeArg optionsArg reflectedType
        inferredType target propertyName).2 = storage := by
  unfold primaryColumnDecorate at h ⊢
  cases hp : primaryColumnProcess typeArg optionsArg reflectedType
      inferredType target propertyName with
  | error e2 => simp [hp]
  | ok cm => simp [hp] at h

/-- C5 (witness): declaring a nullable primary column leaves the storage
unchanged. -/
theorem primaryColumn_error_storage_unchanged_witness :
    (primaryColumnDecorate [] (some "int") (some { nullable := true })
        "number" none 7 "id").2 = [] :=
  primaryColumn_error_storage_unchanged [] (some "int")
    (some { nullable := true }) "number" none 7 "id"
    (ColumnDecoratorError.primaryColumnCannotBeNullableError 7 "id") rfl

/-- C6: in every reachable connection state each pair's metadata projection
recovers the metadata registry exactly (one repository per registered
metadata), every pair was built by `createRepoMeta` from its own metadata,
`addEntityMetadatas` appends to both collections (one fresh pair per new
metadata), and neither `addEntityListenerMetadatas` nor `addSubscribers`
changes either collection. -/
theorem connection_repository_invariant (c : Connection) (h : Reached c)
    (ms : List EntityMetadata) (ls ss : List Nat) :
    c.repositoryAndMetadatas.map RepositoryAndMetadata.metadata = c.entityMetadatas ∧
    (∀ rm ∈ c.repositoryAndMetadatas, rm = createRepoMeta rm.metadata) ∧
    (c.addEntityMetadatas ms).entityMetadatas = c.entityMetadatas ++ ms ∧
    (c.addEntityMetadatas ms).repositoryAndMetadatas =
      c.repositoryAndMetadatas ++ ms.map createRepoMeta ∧
    (c.addEntityListenerMetadatas ls).entityMetadatas = c.entityMetadatas ∧
    (c.addEntityListenerMetadatas ls).repositoryAndMetadatas = c.repositoryAndMetadatas ∧
    (c.addSubscribers ss).entityMetadatas = c.entityMetadatas ∧
    (c.addSubscribers ss).repositoryAndMetadatas = c.repositoryAndMetadatas := by
  have hp := reached_pairs_eq c h
  refine ⟨?_, ?_, rfl, rfl, rfl, rfl, rfl, rfl⟩
  · have hcomp : RepositoryAndMetadata.metadata ∘ createRepoMeta = id := rfl
    rw [hp, List.map_map, hcomp, List.map_id]
  · intro rm hrm
    rw [hp] at hrm
    obtain ⟨m, _, hm⟩ := List.mem_map.mp hrm
    rw [← hm]
    rfl

/-- C6 (witness): the metadata projection of the pair list recovers the
registry on a connection with one registered metadata. -/
theorem connection_repository_invariant_witness :
    ((mkConnection "c" 0 {}).addEntityMetadatas
        [{ id := 1, target := 42 }]).repositoryAndMetadatas.map
      RepositoryAndMetadata.metadata =
    ((mkConnection "c" 0 {}).addEntityMetadatas
        [{ id := 1, target := 42 }]).entityMetadatas :=
  (connection_repository_invariant _
    (Reached.addMetas _ _ (Reached.init "c" 0 {})) [] [] []).1

/-- C7: `connect` always invokes the driver connect first; when it succeeds
and `autoSchemaCreate` is set, the schema creator is invoked next and the
result fulfils exactly when schema creation does; when the option is off the
schema step is skipped and the result fulfils after the driver connect
alone; when the driver connect fails the schema creator is never invoked. -/
theorem connect_sequencing (c : Connection) (driverOk schemaOk : Bool) :
    (c.connect driverOk schemaOk).2.head? = some ConnectStep.driverConnect ∧
    (driverOk = true → c.options.autoSchemaCreate = true →
      c.connect driverOk schemaOk =
        (schemaOk, [ConnectStep.driverConnect, ConnectStep.schemaCreate])) ∧
    (driverOk = true → c.options.autoSchemaCreate = false →
      c.connect driverOk schemaOk = (true, [ConnectStep.driverConnect])) ∧
    (driverOk = false →
      c.connect driverOk schemaOk = (false, [ConnectStep.driverConnect]) ∧
      ConnectStep.schemaCreate ∉ (c.connect driverOk schemaOk).2) := by
  unfold Connection.connect
  cases driverOk <;> cases hc : c.options.autoSchemaCreate <;> simp [hc]

/-- C7 (witness): with `autoSchemaCreate` on and both capabilities
fulfilling, the trace is driver connect then schema create and the promise
fulfils. -/
theorem connect_sequencing_witness :
    (mkConnection "c" 0 { autoSchemaCreate := true }).connect true true =
      (true, [ConnectStep.driverConnect, ConnectStep.schemaCreate]) :=
  (connect_sequencing (mkConnection "c" 0 { autoSchemaCreate := true })
    true true).2.1 rfl rfl

/-- C8: in every reachable connection state the `repositories` getter
returns one repository per registered metadata in registration order, and
`addEntityMetadatas` extends that list at the end, one new repository per
added metadata, in the order given. -/
theorem repositories_insertion_order (c : Connection) (h : Reached c)
    (ms : List EntityMetadata) :
    c.repositories = c.entityMetadatas.map (fun m => { metadata := m }) ∧
    (c.addEntityMetadatas ms).repositories =
      c.repositories ++ ms.map (fun m => { metadata := m }) := by
  have hp := reached_pairs_eq c h
  constructor
  · rw [Connection.repositories, hp, List.map_map]
    simp [createRepoMeta, Function.comp]
  · simp [Connection.repositories, Connection.addEntityMetadatas,
      createRepoMeta, List.map_map, Function.comp]

/-- C8 (witness): after registering two metadatas the getter lists their two
repositories in registration order. -/
theorem repositories_insertion_order_witness :
    ((mkConnection "c" 0 {}).addEntityMetadatas
        [{ id := 1, target := 10 }, { id := 2, target := 20 }]).repositories =
      [{ metadata := { id := 1, target := 10 } },
       { metadata := { id := 2, target := 20 } }] :=
  (repositories_insertion_order _
    (Reached.addMetas _ _ (Reached.init "c" 0 {})) []).1

/-- C10: `addEntityListenerMetadatas` appends to the listener registry and
changes nothing else, and `addSubscribers` appends to the subscriber list
and changes nothing else: name, driver, options, the metadata registry, the
repository pairs and the respective other list are all unchanged. -/
theorem registration_frame (c : Connection) (ls ss : List Nat) :
    (c.addEntityListenerMetadatas ls).name = c.name ∧
    (c.addEntityListenerMetadatas ls).driver = c.driver ∧
    (c.addEntityListenerMetadatas ls).options = c.options ∧
    (c.addEntityListenerMetadatas ls).entityMetadatas = c.entityMetadatas ∧
    (c.addEntityListenerMetadatas ls).repositoryAndMetadatas = c.repositoryAndMetadatas ∧
    (c.addEntityListenerMetadatas ls).subscribers = c.subscribers ∧
    (c.addEntityListenerMetadatas ls).entityListenerMetadatas =
      c.entityListenerMetadatas ++ ls ∧
    (c.addSubscribers ss).name = c.name ∧
    (c.addSubscribers ss).driver = c.driver ∧
    (c.addSubscribers ss).options = c.options ∧
    (c.addSubscribers ss).entityMetadatas = c.entityMetadatas ∧
    (c.addSubscribers ss).repositoryAndMetadatas = c.repositoryAndMetadatas ∧
    (c.addSubscribers ss).entityListenerMetadatas = c.entityListenerMetadatas ∧
    (c.addSubscribers ss).subscribers = c.subscribers ++ ss :=
  ⟨rfl, rfl, rfl, rfl, rfl, rfl, rfl, rfl, rfl, rfl, rfl, rfl, rfl, rfl⟩
